import Mathlib

/-! Verification development for the City Learn NYC school-district heatmap.
    The embedding covers the HeatMap client variants (the two documents inside
    frontend/src/components/HeatMap/HeatMap.jsx and the unnamed part_003
    variant) together with the parts of the Flask aggregation backend that the
    spec describes; the backend source (app.py) is not present in the
    repository snapshot, so those pieces are modelled from the spec and are
    marked as such in their doc comments. -/

/-- One row of the survey dataset: a district id, an explicit school-type tag
    and the metric cells; `none` models a missing cell value. -/
structure SchoolRecord where
  districtId : Nat
  schoolType : String
  cells : List (String × Option ℚ)
  deriving DecidableEq

/-- Raw cell value of a metric in a record; missing when the column is absent
    from the row or the cell itself is empty. -/
def cellValue (r : SchoolRecord) (metric : String) : Option ℚ :=
  match r.cells.lookup metric with
  | some (some v) => some v
  | _ => none

/-- Modelled from the spec: partition membership (spec 4.1, backend app.py
    absent from the snapshot) — the "all" school type includes every record,
    any other school type is an explicit tag comparison. -/
def inPartition (st : String) (r : SchoolRecord) : Bool :=
  st == "all" || r.schoolType == st

/-- The rows of a school-type partition that belong to one district. -/
def districtRows (ds : List SchoolRecord) (st : String) (d : Nat) : List SchoolRecord :=
  ds.filter (fun r => inPartition st r && r.districtId == d)

/-- A district's non-missing numeric values for a metric. -/
def districtValues (ds : List SchoolRecord) (st metric : String) (d : Nat) : List ℚ :=
  (districtRows ds st d).filterMap (fun r => cellValue r metric)

/-- Running sum and count of the non-missing values of a metric over a list
    of rows. -/
def sumCount (metric : String) : List SchoolRecord → ℚ × Nat
  | [] => (0, 0)
  | r :: rs =>
    let p := sumCount metric rs
    match cellValue r metric with
    | some v => (p.1 + v, p.2 + 1)
    | none => p

/-- Modelled from the spec: the District Aggregator's numeric case (spec 4.3
    steps 4-5; the Flask backend app.py is absent from the snapshot). The
    district average is the arithmetic mean of the non-missing values;
    `none` models a district omitted from the result mapping. -/
def aggregateNumeric (ds : List SchoolRecord) (st metric : String) (d : Nat) : Option ℚ :=
  let p := sumCount metric (districtRows ds st d)
  if p.2 = 0 then none else some (p.1 / (p.2 : ℚ))

/-- The spec section 8 scenario dataset: three high-school records in
    district 2 with attendance values 90, 95 and missing. -/
def scenarioDataset : List SchoolRecord :=
  [⟨2, "hs", [("attendance", some 90)]⟩,
   ⟨2, "hs", [("attendance", some 95)]⟩,
   ⟨2, "hs", [("attendance", none)]⟩]

/-- Hexadecimal digit character used by the percent-encoder. -/
def hexDigit (n : Nat) : Char :=
  if n < 10 then Char.ofNat (48 + n) else Char.ofNat (55 + n)

/-- Percent-encoding of a single byte. -/
def percentByte (b : UInt8) : String :=
  "%" ++ String.singleton (hexDigit (b.toNat / 16)) ++ String.singleton (hexDigit (b.toNat % 16))

/-- Model of the JavaScript encodeURIComponent: unreserved characters pass
    through unchanged, every other character is percent-encoded byte by byte
    from its UTF-8 encoding. (Char.ofNat 39 is the apostrophe, which
    encodeURIComponent leaves unescaped.) -/
def encodeURIComponent (s : String) : String :=
  s.data.foldl (fun acc c =>
    if c.isAlphanum || c ∈ ['-', '_', '.', '!', '~', '*', '(', ')'] || c = Char.ofNat 39 then
      acc ++ String.singleton c
    else
      acc ++ (String.singleton c).toUTF8.toList.foldl (fun a b => a ++ percentByte b) "") ""

/-- URL of the max-value fetch in the first HeatMap.jsx variant (line 61):
    the dedicated /max_value endpoint, no schoolType parameter. -/
def maxValueFetchUrlV1 (metric : String) : String :=
  "http://localhost:5004/max_value?metric=" ++ encodeURIComponent metric

/-- URL of the max-value fetch in the documented HeatMap.jsx variant
    (line 474): the fetch is issued against the /districts endpoint even
    though the comment above it names /max_value. -/
def maxValueFetchUrlDoc (backendUrl metric schoolType : String) : String :=
  backendUrl ++ "/districts?metric=" ++ encodeURIComponent metric ++
    "&schoolType=" ++ schoolType

/-- URL of the max-value fetch in the part_003 variant (line 217): the
    dedicated /max_value endpoint with metric and schoolType parameters. -/
def maxValueFetchUrlP3 (metric schoolType : String) : String :=
  "http://localhost:5004/max_value?metric=" ++ encodeURIComponent metric ++
    "&schoolType=" ++ schoolType

/-- The inferred kind of a metric column (spec 3, MetricDefinition). -/
inductive MetricKind
  | Numeric
  | Categorical
  | NonAggregable
  deriving DecidableEq

/-- Modelled from the spec: the HTTP status of the /districts endpoint
    (spec 6: 400/422-class when the metric resolves to NonAggregable kind;
    the Flask backend app.py is absent from the snapshot). -/
def districtsEndpointStatus (kind : MetricKind) : Nat :=
  match kind with
  | .NonAggregable => 422
  | _ => 200

/-- The fetch Response.ok flag: true exactly for 2xx statuses. -/
def responseOk (status : Nat) : Bool :=
  decide (200 ≤ status) && decide (status < 300)

/-- One value of the districtAverages mapping as the client sees it: a JSON
    null, a number, or an object with optional averageScore and frequency
    fields. -/
inductive DistrictDatum
  | nullDatum
  | num (q : ℚ)
  | obj (averageScore : Option ℚ) (frequency : Option (List (String × Nat)))
  deriving DecidableEq

/-- Outcome of the /districts fetch as the client handler sees it: a network
    error, or a response with an ok flag and an optional districtAverages
    body (`none` covers both a null body and a body without the field). -/
inductive DistrictsFetchOutcome
  | networkError
  | response (ok : Bool) (districtAverages : Option (List (Nat × DistrictDatum)))
  deriving DecidableEq

/-- The error the districts handler throws: the documented HeatMap.jsx
    variant (line 456) and part_003 (line 199) throw "Non-numeric data
    detected" exactly when the response is present and not ok. -/
def districtsThrown (o : DistrictsFetchOutcome) : Option String :=
  match o with
  | .networkError => none
  | .response ok _ => if ok then none else some "Non-numeric data detected"

/-- The districtData state after the districts fetch settles, following the
    documented HeatMap.jsx variant (lines 454-470) and part_003
    (lines 197-215): a thrown error or a network error reaches the catch and
    clears the mapping, a missing body clears it, otherwise the received
    mapping is stored. -/
def districtsUpdate (o : DistrictsFetchOutcome) : List (Nat × DistrictDatum) :=
  match o with
  | .networkError => []
  | .response ok body =>
    if ok then
      match body with
      | none => []
      | some avgs => avgs
    else []

/-- JavaScript truthiness of a number (NaN excluded by the rational model):
    every number other than 0 is truthy. -/
def jsTruthy (q : ℚ) : Bool := q != 0

/-- Outcome of the max-value fetch: a network error, or a parsed JSON body
    whose maxValue field may be absent (`none` covers a null body and a body
    without the field). -/
inductive MaxFetchOutcome
  | networkError
  | response (maxValue : Option ℚ)
  deriving DecidableEq

/-- The maxValue state after the max-value fetch settles, following the
    documented HeatMap.jsx variant (lines 475-486) and part_003
    (lines 218-231): a truthy maxValue field is stored, anything else
    (missing field, falsy value, network error) defaults to 1. -/
def maxValueUpdate (o : MaxFetchOutcome) : ℚ :=
  match o with
  | .networkError => 1
  | .response none => 1
  | .response (some v) => if jsTruthy v then v else 1

/-- Whether a max-value fetch outcome lacks a truthy maxValue field (or is a
    network error). -/
def lacksTruthyMaxValue (o : MaxFetchOutcome) : Bool :=
  match o with
  | .networkError => true
  | .response none => true
  | .response (some v) => !jsTruthy v

/-- The upper bound of the color-scale domain [0, maxValue || 1] (documented
    HeatMap.jsx variant line 258, part_003 line 37), where the maxValue
    state is null initially: a falsy state (null or 0) yields 1. -/
def colorScaleUpper (maxValueState : Option ℚ) : ℚ :=
  match maxValueState with
  | none => 1
  | some v => if jsTruthy v then v else 1

/-- One interpolated color channel of the d3 linear scale: start channel c0,
    end channel c1, interpolation parameter t, rounded to an integer as in
    the rgb serialization. -/
def interpChannel (c0 c1 t : ℚ) : ℤ :=
  round (c0 + t * (c1 - c0))

/-- The rgb triple the heatmap color scale produces at interpolation
    parameter t, for the range #e0f7fa (224,247,250) to #006064 (0,96,100). -/
def heatInterpRgb (t : ℚ) : ℤ × ℤ × ℤ :=
  (interpChannel 224 0 t, interpChannel 247 96 t, interpChannel 250 100 t)

/-- The rgb triple of the default fill color #ccc. -/
def cccRgb : ℤ × ℤ × ℤ := (204, 204, 204)

/-- Serialization of an rgb triple as d3 renders interpolated colors. -/
def rgbString (c : ℤ × ℤ × ℤ) : String :=
  "rgb(" ++ toString c.1 ++ ", " ++ toString c.2.1 ++ ", " ++ toString c.2.2 ++ ")"

/-- The color the scale assigns to value x with domain [0, upper]. -/
def colorScaleColor (upper x : ℚ) : String :=
  rgbString (heatInterpRgb (x / upper))

/-- The fill attribute of a district path, following the documented
    HeatMap.jsx variant (lines 266-287) and part_003 (lines 45-70): without a
    selected metric or without an entry for the district the fill is the
    default #ccc; a null entry is also #ccc; a numeric entry and an object
    with averageScore go through the color scale; any other object is #ddd. -/
def fillAttr (selectedMetric : Option String) (dd : List (Nat × DistrictDatum))
    (district : Nat) (upper : ℚ) : String :=
  match selectedMetric with
  | none => "#ccc"
  | some _ =>
    match dd.lookup district with
    | none => "#ccc"
    | some .nullDatum => "#ccc"
    | some (.num q) => colorScaleColor upper q
    | some (.obj (some s) _) => colorScaleColor upper s
    | some (.obj none _) => "#ddd"

/-- Initial selectedSchoolType state of the documented HeatMap.jsx variant
    (line 213). -/
def initialSelectedSchoolTypeDoc : String := "all"

/-- Initial selectedSchoolType state of the part_003 variant (line 9). -/
def initialSelectedSchoolTypeP3 : String := "hs"

/-- The recognized schoolType values (spec 6). -/
def recognizedSchoolTypes : List String := ["all", "hs", "ems", "hst", "d75", "ec"]

/-- The values offered by the radio inputs of the documented HeatMap.jsx
    variant (lines 513-537). -/
def radioValuesDoc : List String := ["all", "hs", "ems", "hst", "d75", "ec"]

/-- The values offered by the radio inputs of the part_003 variant
    (lines 256-277); this variant has no "all" radio. -/
def radioValuesP3 : List String := ["hs", "ems", "hst", "d75", "ec"]

/-- Every schoolType value the documented variant can send: the initial
    state or a radio value (handleSchoolTypeChange stores the radio value). -/
def sendableSchoolTypesDoc : List String :=
  initialSelectedSchoolTypeDoc :: radioValuesDoc

/-- Every schoolType value the part_003 variant can send. -/
def sendableSchoolTypesP3 : List String :=
  initialSelectedSchoolTypeP3 :: radioValuesP3

/-- Modelled from the spec: the unrecognized-school-type error branch of the
    backend (spec 6 and 8: an unrecognized schoolType such as "zz" returns an
    error; the Flask backend app.py is absent from the snapshot). -/
def schoolTypeUnrecognized (st : String) : Bool :=
  !(recognizedSchoolTypes.contains st)

/-- The initialization loop of the first HeatMap.jsx variant (lines 14-17):
    for i from 1 to n, initialDistrictData[i] = 0. -/
def districtLoop : Nat → List (Nat × ℚ)
  | 0 => []
  | n + 1 => districtLoop n ++ [(n + 1, 0)]

/-- The initial district-data mapping of the first HeatMap.jsx variant
    (lines 12-20): districts 1..32, each mapped to 0. -/
def initialDistrictData : List (Nat × ℚ) := districtLoop 32

/-- Model of Number.prototype.toFixed(2): the value scaled by 100 and rounded,
    rendered with two decimal places. -/
def toFixed2 (q : ℚ) : String :=
  let scaled : ℤ := round (q * 100)
  let n : ℤ := if scaled < 0 then -scaled else scaled
  let sign : String := if scaled < 0 then "-" else ""
  sign ++ toString (n / 100) ++ "." ++ (if n % 100 < 10 then "0" else "") ++ toString (n % 100)

/-- The frequency lines of the tooltip: one "label: count<br>" line per
    frequency entry, in order. -/
def frequencyLines (freq : List (String × Nat)) : String :=
  freq.foldl (fun acc kv => acc ++ kv.1 ++ ": " ++ toString kv.2 ++ "<br>") ""

/-- Which branch of the mouseover tooltip runs, following the documented
    HeatMap.jsx variant (lines 297-313) and part_003 (lines 79-95): the
    numeric test comes first, then the frequency test, then the averageScore
    test; a missing entry, a null entry or an object with neither field adds
    nothing beyond the district line. -/
inductive TooltipBranch
  | numericBranch
  | frequencyBranch
  | averageScoreBranch
  | noBranch
  deriving DecidableEq

/-- Branch selection of the mouseover tooltip (same sources). -/
def tooltipBranch (selectedMetric : Option String) (dd : List (Nat × DistrictDatum))
    (district : Nat) : TooltipBranch :=
  match selectedMetric, dd.lookup district with
  | none, _ => .noBranch
  | some _, none => .noBranch
  | some _, some .nullDatum => .noBranch
  | some _, some (.num _) => .numericBranch
  | some _, some (.obj _ (some _)) => .frequencyBranch
  | some _, some (.obj (some _) none) => .averageScoreBranch
  | some _, some (.obj none none) => .noBranch

/-- The tooltip HTML the mouseover handler builds (same sources). The
    averageScore branch reads Object.keys(data.frequency) with frequency
    undefined, which throws a TypeError in JavaScript before the tooltip is
    shown; that is modelled as the error case. -/
def tooltipResult (selectedMetric : Option String) (dd : List (Nat × DistrictDatum))
    (district : Nat) : Except String String :=
  let base : String := "District: " ++ toString district ++ "<br>"
  match selectedMetric, dd.lookup district with
  | some _, some (.num q) =>
    Except.ok (base ++ "Average Metric: " ++ (if q == 0 then "N/A" else toFixed2 q))
  | some _, some (.obj _ (some freq)) =>
    Except.ok (base ++ "Frequency:<br>" ++ frequencyLines freq)
  | some _, some (.obj (some _) none) =>
    Except.error "TypeError: Object.keys called on undefined frequency"
  | _, _ => Except.ok base

/-- The running sum-and-count pass computes exactly the sum and the length of
    the list of non-missing values. -/
theorem sumCount_eq (metric : String) (rs : List SchoolRecord) :
    sumCount metric rs =
      ((rs.filterMap (fun r => cellValue r metric)).sum,
       (rs.filterMap (fun r => cellValue r metric)).length) := by
  induction rs with
  | nil => rfl
  | cons r rs ih =>
    simp only [sumCount, List.filterMap_cons, ih]
    cases h : cellValue r metric with
    | none => simp
    | some v => simp [add_comm]

/-- C1: for every dataset, numeric metric, school type and district, the
    district aggregate average is the arithmetic mean of the district's
    non-missing numeric values, and a district with zero non-missing values
    is absent from the result mapping. -/
theorem claim1_numeric_average (ds : List SchoolRecord) (st metric : String) (d : Nat) :
    (districtValues ds st metric d = [] → aggregateNumeric ds st metric d = none) ∧
    (districtValues ds st metric d ≠ [] →
      aggregateNumeric ds st metric d =
        some ((districtValues ds st metric d).sum /
          ((districtValues ds st metric d).length : ℚ))) := by
  have h : sumCount metric (districtRows ds st d) =
      ((districtValues ds st metric d).sum, (districtValues ds st metric d).length) :=
    sumCount_eq metric (districtRows ds st d)
  constructor
  · intro he
    simp only [aggregateNumeric, h, he]
    simp
  · intro he
    simp only [aggregateNumeric, h]
    rw [if_neg]
    simpa [List.length_eq_zero] using he

/-- Witness for C1 at the spec section 8 scenario: district 2 high-school
    attendance values 90, 95 and one missing value. -/
theorem claim1_numeric_average_witness :
    districtValues scenarioDataset "hs" "attendance" 2 ≠ [] ∧
    aggregateNumeric scenarioDataset "hs" "attendance" 2 =
      some ((districtValues scenarioDataset "hs" "attendance" 2).sum /
        ((districtValues scenarioDataset "hs" "attendance" 2).length : ℚ)) :=
  ⟨by decide, (claim1_numeric_average scenarioDataset "hs" "attendance" 2).2 (by decide)⟩

/-- The scenario average evaluates to 92.5, as the spec states. -/
theorem scenario_attendance_mean :
    aggregateNumeric scenarioDataset "hs" "attendance" 2 = some (185 / 2) := by
  have h2 := sumCount_eq "attendance" (districtRows scenarioDataset "hs" 2)
  rw [show ((districtRows scenarioDataset "hs" 2).filterMap
      (fun r => cellValue r "attendance")) = [90, 95] by decide] at h2
  simp only [aggregateNumeric, h2]
  norm_num

/-- C2: evaluation of the three max-value fetch URL builders at a concrete
    selection. The documented HeatMap.jsx variant issues its max-value fetch
    against the /districts aggregate endpoint, contradicting both its own
    comment (which names /max_value) and the two other variants, which use
    the dedicated /max_value endpoint. -/
theorem claim2_max_value_endpoint_bug :
    maxValueFetchUrlDoc "http://localhost:5004" "Attendance" "hs" =
      "http://localhost:5004/districts?metric=Attendance&schoolType=hs" ∧
    maxValueFetchUrlP3 "Attendance" "hs" =
      "http://localhost:5004/max_value?metric=Attendance&schoolType=hs" ∧
    maxValueFetchUrlV1 "Attendance" =
      "http://localhost:5004/max_value?metric=Attendance" :=
  ⟨rfl, rfl, rfl⟩

/-- C6 counterexample: the part_003 variant initializes its selected school
    type to "hs", so not every client variant starts at "all". -/
theorem claim6_counterexample : initialSelectedSchoolTypeP3 ≠ "all" := by decide

/-- C6 amended: the documented HeatMap.jsx variant initializes the selected
    school type to "all", while the part_003 variant initializes it to "hs". -/
theorem claim6_amended :
    initialSelectedSchoolTypeDoc = "all" ∧ initialSelectedSchoolTypeP3 = "hs" :=
  ⟨rfl, rfl⟩

/-- C7: every schoolType value either client variant can send (the initial
    state or a radio value) lies in the recognized set, no sendable value
    reaches the unrecognized-school-type error branch, and the branch does
    fire on an unrecognized value such as "zz". -/
theorem claim7_sendable_school_types_recognized :
    (sendableSchoolTypesDoc ++ sendableSchoolTypesP3).all
      (fun s => recognizedSchoolTypes.contains s) = true ∧
    (sendableSchoolTypesDoc ++ sendableSchoolTypesP3).all
      (fun s => !schoolTypeUnrecognized s) = true ∧
    schoolTypeUnrecognized "zz" = true :=
  ⟨by decide, by decide, by decide⟩

/-- C8: the initial district-data mapping of the first HeatMap.jsx variant
    contains exactly the integer keys 1 through 32, in order, each mapped
    to 0, and no key outside that range. -/
theorem claim8_initial_district_data :
    (∀ k : Nat, k ∈ initialDistrictData.map Prod.fst ↔ 1 ≤ k ∧ k ≤ 32) ∧
    initialDistrictData.all (fun p => p.2 == 0) = true ∧
    initialDistrictData.map Prod.fst = (List.range 32).map (fun i => i + 1) := by
  refine ⟨?_, by decide, by decide⟩
  intro k
  have h : initialDistrictData.map Prod.fst = (List.range 32).map (fun i => i + 1) := by
    decide
  rw [h]
  simp only [List.mem_map, List.mem_range]
  constructor
  · rintro ⟨i, hi, rfl⟩
    omega
  · intro hk
    exact ⟨k - 1, by omega, by omega⟩

/-- C3: requesting district aggregates for a NonAggregable metric is a
    non-ok 400/422-class response, the client throws "Non-numeric data
    detected" exactly when a response is not ok, and on that error the
    district data is cleared to the empty mapping. -/
theorem claim3_non_aggregable_error (kind : MetricKind)
    (body : Option (List (Nat × DistrictDatum)))
    (h : kind = MetricKind.NonAggregable) :
    responseOk (districtsEndpointStatus kind) = false ∧
    (400 ≤ districtsEndpointStatus kind ∧ districtsEndpointStatus kind < 500) ∧
    districtsThrown
        (.response (responseOk (districtsEndpointStatus kind)) body) =
      some "Non-numeric data detected" ∧
    districtsUpdate
        (.response (responseOk (districtsEndpointStatus kind)) body) = [] ∧
    (∀ (ok : Bool) (b : Option (List (Nat × DistrictDatum))),
      districtsThrown (.response ok b) = some "Non-numeric data detected" ↔
        ok = false) := by
  subst h
  refine ⟨rfl, by decide, rfl, rfl, ?_⟩
  intro ok b
  cases ok <;> simp [districtsThrown]

/-- Witness for C3 at kind NonAggregable with an absent body. -/
theorem claim3_non_aggregable_error_witness :
    MetricKind.NonAggregable = MetricKind.NonAggregable ∧
    (responseOk (districtsEndpointStatus MetricKind.NonAggregable) = false ∧
     (400 ≤ districtsEndpointStatus MetricKind.NonAggregable ∧
      districtsEndpointStatus MetricKind.NonAggregable < 500) ∧
     districtsThrown
         (.response (responseOk (districtsEndpointStatus MetricKind.NonAggregable)) none) =
       some "Non-numeric data detected" ∧
     districtsUpdate
         (.response (responseOk (districtsEndpointStatus MetricKind.NonAggregable)) none) =
       [] ∧
     (∀ (ok : Bool) (b : Option (List (Nat × DistrictDatum))),
       districtsThrown (.response ok b) = some "Non-numeric data detected" ↔
         ok = false)) :=
  ⟨rfl, claim3_non_aggregable_error MetricKind.NonAggregable none rfl⟩

/-- C4: whenever the max-value fetch outcome lacks a truthy maxValue field
    or errors, the stored maxValue is 1, and the color-scale domain upper
    bound maxValue || 1 is never 0, for any maxValue state. -/
theorem claim4_max_value_default (o : MaxFetchOutcome)
    (h : lacksTruthyMaxValue o = true) :
    maxValueUpdate o = 1 ∧ ∀ s : Option ℚ, colorScaleUpper s ≠ 0 := by
  constructor
  · cases o with
    | networkError => rfl
    | response mv =>
      cases mv with
      | none => rfl
      | some v =>
        simp only [lacksTruthyMaxValue, jsTruthy, Bool.not_eq_true'] at h
        simp [maxValueUpdate, jsTruthy, h]
  · intro s
    cases s with
    | none =>
      simp [colorScaleUpper]
    | some v =>
      by_cases hv : v = 0
      · simp [colorScaleUpper, jsTruthy, hv]
      · simp [colorScaleUpper, jsTruthy, hv]

/-- Witness for C4 at a failed fetch. -/
theorem claim4_max_value_default_witness :
    lacksTruthyMaxValue MaxFetchOutcome.networkError = true ∧
    (maxValueUpdate MaxFetchOutcome.networkError = 1 ∧
     ∀ s : Option ℚ, colorScaleUpper s ≠ 0) :=
  ⟨rfl, claim4_max_value_default MaxFetchOutcome.networkError rfl⟩

/-- The heatmap color scale never produces the rgb triple of #ccc: the red
    and green channels would need disjoint ranges of the interpolation
    parameter. -/
theorem heat_not_ccc (t : ℚ) : heatInterpRgb t ≠ cccRgb := by
  intro h
  simp only [heatInterpRgb, cccRgb, interpChannel, Prod.mk.injEq] at h
  obtain ⟨h1, h2, -⟩ := h
  rw [round_eq, Int.floor_eq_iff] at h1 h2
  push_cast at h1 h2
  obtain ⟨h1a, h1b⟩ := h1
  obtain ⟨h2a, h2b⟩ := h2
  linarith

/-- C5: a district absent from the district-data mapping is filled with the
    default color #ccc, and so is every district when no metric is selected,
    and #ccc differs from every color the metric color scale can produce. -/
theorem claim5_missing_district_default_fill (m : Option String)
    (dd : List (Nat × DistrictDatum)) (district : Nat) (upper t : ℚ)
    (h : dd.lookup district = none) :
    fillAttr m dd district upper = "#ccc" ∧
    fillAttr none dd district upper = "#ccc" ∧
    heatInterpRgb t ≠ cccRgb := by
  refine ⟨?_, rfl, heat_not_ccc t⟩
  cases m with
  | none => rfl
  | some s => simp [fillAttr, h]

/-- Witness for C5 at an empty district-data mapping. -/
theorem claim5_missing_district_default_fill_witness :
    (([] : List (Nat × DistrictDatum)).lookup 1 = none) ∧
    (fillAttr (some "x") [] 1 1 = "#ccc" ∧
     fillAttr none [] 1 1 = "#ccc" ∧
     heatInterpRgb 0 ≠ cccRgb) :=
  ⟨rfl, claim5_missing_district_default_fill (some "x") [] 1 1 0 rfl⟩

/-- C9: a district present in the mapping with the numeric value 0 renders
    the tooltip line "Average Metric: N/A" rather than "0.00", although
    toFixed(2) of 0 is "0.00" — the truthiness guard conflates a genuine
    zero average with absent data. -/
theorem claim9_zero_average_tooltip (m : String) (dd : List (Nat × DistrictDatum))
    (district : Nat) (h : dd.lookup district = some (DistrictDatum.num 0)) :
    tooltipResult (some m) dd district =
      Except.ok ("District: " ++ toString district ++ "<br>" ++
        "Average Metric: " ++ "N/A") ∧
    toFixed2 0 = "0.00" := by
  constructor
  · simp [tooltipResult, h]
  · have hs : round ((0 : ℚ) * 100) = 0 := by
      rw [round_eq]
      norm_num
    simp only [toFixed2, hs]
    rfl

/-- Witness for C9 at a one-entry mapping carrying a zero average. -/
theorem claim9_zero_average_tooltip_witness :
    ([(3, DistrictDatum.num 0)] : List (Nat × DistrictDatum)).lookup 3 =
      some (DistrictDatum.num 0) ∧
    (tooltipResult (some "x") [(3, DistrictDatum.num 0)] 3 =
      Except.ok ("District: " ++ toString (3 : Nat) ++ "<br>" ++
        "Average Metric: " ++ "N/A") ∧
     toFixed2 0 = "0.00") :=
  ⟨rfl, claim9_zero_average_tooltip "x" [(3, DistrictDatum.num 0)] 3 rfl⟩

/-- C10: a categorical aggregate carrying both frequency and averageScore
    renders only the frequency counts (the frequency branch is tested
    first), and the averageScore branch is reachable only for an object
    having averageScore without frequency. -/
theorem claim10_average_score_branch (m : String) (dd : List (Nat × DistrictDatum))
    (district : Nat) (avg : ℚ) (freq : List (String × Nat))
    (h : dd.lookup district = some (DistrictDatum.obj (some avg) (some freq))) :
    tooltipBranch (some m) dd district = TooltipBranch.frequencyBranch ∧
    tooltipResult (some m) dd district =
      Except.ok ("District: " ++ toString district ++ "<br>" ++
        "Frequency:<br>" ++ frequencyLines freq) ∧
    (∀ (m2 : Option String) (dd2 : List (Nat × DistrictDatum)) (district2 : Nat),
      tooltipBranch m2 dd2 district2 = TooltipBranch.averageScoreBranch →
      ∃ s : ℚ, dd2.lookup district2 = some (DistrictDatum.obj (some s) none)) := by
  refine ⟨by simp [tooltipBranch, h], by simp [tooltipResult, h], ?_⟩
  intro m2 dd2 district2 hb
  cases m2 with
  | none => simp [tooltipBranch] at hb
  | some s2 =>
    cases hl : dd2.lookup district2 with
    | none => simp [tooltipBranch, hl] at hb
    | some dat =>
      cases dat with
      | nullDatum => simp [tooltipBranch, hl] at hb
      | num q => simp [tooltipBranch, hl] at hb
      | obj avg2 freq2 =>
        cases freq2 with
        | some f => simp [tooltipBranch, hl] at hb
        | none =>
          cases avg2 with
          | none => simp [tooltipBranch, hl] at hb
          | some sc => exact ⟨sc, rfl⟩

/-- Witness for C10 at a well-formed categorical aggregate carrying both
    fields. -/
theorem claim10_average_score_branch_witness :
    ([(5, DistrictDatum.obj (some 3) (some [("Meeting Target", 2)]))] :
        List (Nat × DistrictDatum)).lookup 5 =
      some (DistrictDatum.obj (some 3) (some [("Meeting Target", 2)])) ∧
    (tooltipBranch (some "x")
        [(5, DistrictDatum.obj (some 3) (some [("Meeting Target", 2)]))] 5 =
      TooltipBranch.frequencyBranch ∧
     tooltipResult (some "x")
        [(5, DistrictDatum.obj (some 3) (some [("Meeting Target", 2)]))] 5 =
      Except.ok ("District: " ++ toString (5 : Nat) ++ "<br>" ++
        "Frequency:<br>" ++ frequencyLines [("Meeting Target", 2)]) ∧
     (∀ (m2 : Option String) (dd2 : List (Nat × DistrictDatum)) (district2 : Nat),
       tooltipBranch m2 dd2 district2 = TooltipBranch.averageScoreBranch →
       ∃ s : ℚ, dd2.lookup district2 = some (DistrictDatum.obj (some s) none))) :=
  ⟨rfl, claim10_average_score_branch "x"
    [(5, DistrictDatum.obj (some 3) (some [("Meeting Target", 2)]))] 5 3
    [("Meeting Target", 2)] rfl⟩
